import Mathlib

/-!
Shallow embedding of `src/payslip_generator.py`: an Excel-roster →
payslip-PDF → email pipeline.  Monetary cells are modelled as exact
rationals, nullable spreadsheet cells (`NaN` under `pd.isna`) as
`Option String`, and the external effects (the PDF canvas, the SMTP
transport) as function parameters returning the value the Python code
observes (`create_payslip`'s returned filename, `send_email`'s Bool).
Thread-pool nondeterminism (`concurrent.futures.as_completed`) is
modelled by quantifying over a permutation of the submission-order
results.
-/

namespace Payslip

/-- One data row of the Excel source, before validation.  `none` models a
cell that `pd.isna` reports as missing (blank Excel cells load as NaN). -/
structure RawRow where
  employeeId : Option String
  name : String
  email : Option String
  basicSalary : ℚ
  allowances : ℚ
  deductions : ℚ
  deriving Repr, DecidableEq

/-- The tabular source handed to `pd.read_excel`: a header (column names)
plus data rows. -/
structure Source where
  columns : List String
  rows : List RawRow
  deriving Repr, DecidableEq

/-- A loaded roster row, after `load_employee_data` has appended the
derived `Net Salary` column. -/
structure EmployeeRecord where
  employeeId : Option String
  name : String
  email : Option String
  basicSalary : ℚ
  allowances : ℚ
  deductions : ℚ
  netSalary : ℚ
  deriving Repr, DecidableEq

/-- The two failure shapes of `load_employee_data` (both raised as
`ValueError` and surfaced as a printed message plus `None` result). -/
inductive LoadError where
  | missingColumns
  | missingField (rowIdentifier : String)
  deriving Repr, DecidableEq

/-- `required_columns` from `load_employee_data`. -/
def required_columns : List String :=
  ["Employee ID", "Name", "Email", "Basic Salary", "Allowances", "Deductions"]

/-- `df['Net Salary'] = df['Basic Salary'] + df['Allowances'] - df['Deductions']`
applied to one row. -/
def computeNet (row : RawRow) : EmployeeRecord :=
  { employeeId := row.employeeId
    name := row.name
    email := row.email
    basicSalary := row.basicSalary
    allowances := row.allowances
    deductions := row.deductions
    netSalary := row.basicSalary + row.allowances - row.deductions }

/-- The per-row validation test:
`pd.isna(row['Employee ID']) or pd.isna(row['Email'])`. -/
def badRecord (r : EmployeeRecord) : Bool :=
  r.employeeId.isNone || r.email.isNone

/-- `load_employee_data`: checks the schema, derives `Net Salary` for every
row, then fails on the first row whose `Employee ID` or `Email` is missing.
The Python code returns `None` after printing on failure; the `Except`
error value records which failure occurred. -/
def load_employee_data (src : Source) : Except LoadError (List EmployeeRecord) :=
  if required_columns.all (fun c => src.columns.contains c) then
    match (src.rows.map computeNet).find? badRecord with
    | some r => .error (.missingField r.name)
    | none => .ok (src.rows.map computeNet)
  else
    .error .missingColumns

/-- `RenderError`: any exception escaping `create_payslip`, carrying the
employee identifier. -/
inductive RenderError where
  | renderError (employeeId : String)
  deriving Repr, DecidableEq

/-- `str(employee_data['Employee ID'])`; a NaN id prints as "nan"
(unreachable for loaded records, which have a present id). -/
def canonical_employee_id : Option String → String
  | some s => s
  | none => "nan"

/-- The text content `create_payslip` draws on the PDF canvas, keeping the
fields the claims are about.  The monetary cells are drawn through the
`$ {value:,.2f}` formatting modelled by `formatMoney` below. -/
structure PayslipContent where
  date : String
  employeeId : String
  name : String
  email : Option String
  basicSalary : ℚ
  allowances : ℚ
  deductions : ℚ
  netSalary : ℚ
  deriving Repr, DecidableEq

/-- `create_payslip`: derives the output filename
`payslips/{employee_id}.pdf` and draws the payslip.  `current_date` is
`datetime.now().strftime(...)` at render time.  Returns the filename (as
the Python function does) paired with the drawn content. -/
def create_payslip (employee_data : EmployeeRecord) (current_date : String) :
    String × PayslipContent :=
  let employee_id := canonical_employee_id employee_data.employeeId
  let filename := "payslips/" ++ employee_id ++ ".pdf"
  (filename,
    { date := current_date
      employeeId := employee_id
      name := employee_data.name
      email := employee_data.email
      basicSalary := employee_data.basicSalary
      allowances := employee_data.allowances
      deductions := employee_data.deductions
      netSalary := employee_data.netSalary })

/-- Digit grouping of a reversed digit string: insert a comma after every
three digits, as Python's `{:,}` formatting does. -/
def groupRev : List Char → List Char
  | a :: b :: c :: d :: rest => a :: b :: c :: ',' :: groupRev (d :: rest)
  | l => l

/-- Thousands grouping of a digit string. -/
def group_digits (s : String) : String :=
  String.mk ((groupRev s.data.reverse).reverse)

/-- Two-digit zero-padded fraction part. -/
def pad2 (n : ℕ) : String :=
  if n < 10 then "0" ++ toString n else toString n

/-- Format a nonnegative amount given in cents with grouping and exactly
two fraction digits. -/
def fmtAbs (cents : ℕ) : String :=
  group_digits (toString (cents / 100)) ++ "." ++ pad2 (cents % 100)

/-- Python's `f"{x:,.2f}"` on a monetary value: sign, thousands grouping,
two fraction digits. -/
def formatMoney (x : ℚ) : String :=
  if x < 0 then "-" ++ fmtAbs (round (-x * 100)).toNat
  else "" ++ fmtAbs (round (x * 100)).toNat

/-- The net-salary line `create_payslip` draws:
`f"📊 Net Salary: ${net_salary:,.2f}"`. -/
def rendered_net_line (c : PayslipContent) : String :=
  "📊 Net Salary: $" ++ formatMoney c.netSalary

/-- The submission-order results of the render stage of
`generate_payslips_batch`: one `create_payslip` task per record, a raised
exception caught and the item dropped (`generated_files.append` is skipped). -/
def renderAll (render : EmployeeRecord → Except RenderError String)
    (records : List EmployeeRecord) : List String :=
  records.filterMap (fun r => (render r).toOption)

/-- `generate_payslips_batch file_path` as a relation on its possible
return values: it reloads the source, returns `[]` when the load fails,
and otherwise collects the successful renders in `as_completed`
(completion) order — some permutation of the submission-order results. -/
def GeneratePayslipsBatch (render : EmployeeRecord → Except RenderError String)
    (src : Source) (out : List String) : Prop :=
  match load_employee_data src with
  | .error _ => out = []
  | .ok recs => out.Perm (renderAll render recs)

/-- The (attachment, record) pairs `send_payslips` builds by
`zip(generated_files, df.iterrows())`. -/
def notifyAttempts (generated_files : List String) (records : List EmployeeRecord) :
    List (String × EmployeeRecord) :=
  generated_files.zip records

/-- The Bool results of the `send_email` futures, one per zipped pair.
`notify` stands for `send_email` applied to the pair's recipient address
and attachment path (subject, body and smtp config are fixed). -/
def sendResults (notify : Option String → String → Bool)
    (generated_files : List String) (records : List EmployeeRecord) : List Bool :=
  (notifyAttempts generated_files records).map (fun p => notify p.2.email p.1)

/-- `send_payslips`: submits one `send_email` per zipped pair and counts
the futures that returned `True`. -/
def send_payslips (notify : Option String → String → Bool)
    (generated_files : List String) (records : List EmployeeRecord) : ℕ :=
  (sendResults notify generated_files records).countP (fun b => b)

/-- An observable pipeline effect: one document rendered, or one delivery
attempted. -/
inductive Event where
  | render (record : EmployeeRecord)
  | notify (email : Option String) (file : String)
  deriving Repr, DecidableEq

/-- `main` as a relation: `events` are the render/notify operations the run
invokes and `summary` is the final `(sent_count, len(generated_files))`
report, `none` when the run aborted at the load step (`if df is None:
return`).  The existential chooses the completion order of the render
stage. -/
def MainRun (render : EmployeeRecord → Except RenderError String)
    (notify : Option String → String → Bool) (src : Source)
    (events : List Event) (summary : Option (ℕ × ℕ)) : Prop :=
  match load_employee_data src with
  | .error _ => events = [] ∧ summary = none
  | .ok recs => ∃ generated_files : List String,
      generated_files.Perm (renderAll render recs) ∧
      events = recs.map Event.render
        ++ (notifyAttempts generated_files recs).map (fun p => Event.notify p.2.email p.1) ∧
      summary = some (send_payslips notify generated_files recs, generated_files.length)

/-! Concrete sample data used by the witness theorems. -/

/-- A valid roster row (1000/200/50 from the spec's end-to-end scenario). -/
def aliceRow : RawRow :=
  { employeeId := some "1", name := "Alice", email := some "alice@example.com"
    basicSalary := 1000, allowances := 200, deductions := 50 }

/-- A valid roster row (2000/0/0 from the spec's end-to-end scenario). -/
def bobRow : RawRow :=
  { employeeId := some "2", name := "Bob", email := some "bob@example.com"
    basicSalary := 2000, allowances := 0, deductions := 0 }

/-- A valid roster row whose deductions exceed basic salary plus
allowances, so its net salary is negative. -/
def carolRow : RawRow :=
  { employeeId := some "3", name := "Carol", email := some "carol@example.com"
    basicSalary := 500, allowances := 100, deductions := 700 }

/-- A well-formed three-row source. -/
def sampleSource : Source := ⟨required_columns, [aliceRow, bobRow, carolRow]⟩

/-- The roster loaded from `sampleSource`. -/
def sampleRecords : List EmployeeRecord :=
  [computeNet aliceRow, computeNet bobRow, computeNet carolRow]

/-- A source whose second row has no email cell. -/
def badRowSource : Source :=
  ⟨required_columns,
    [aliceRow, { employeeId := some "2", name := "Bob", email := none
                 basicSalary := 2000, allowances := 0, deductions := 0 }]⟩

/-- A source missing every monetary column. -/
def badSchemaSource : Source := ⟨["Employee ID", "Name", "Email"], [aliceRow]⟩

/-- A concrete renderer for witnesses: Bob's render raises, the others
return their output path. -/
def wRender : EmployeeRecord → Except RenderError String := fun r =>
  if r.name = "Bob" then .error (.renderError (canonical_employee_id r.employeeId))
  else .ok ("payslips/" ++ canonical_employee_id r.employeeId ++ ".pdf")

/-- A completion-order output of the render stage over `sampleRecords`
under `wRender`: the two successful renders, completed in reverse order. -/
def wOut : List String := ["payslips/3.pdf", "payslips/1.pdf"]

/-- A concrete notifier for witnesses: delivery to Alice's address fails,
every other delivery succeeds. -/
def wNotify : Option String → String → Bool := fun email _ =>
  email ≠ some "alice@example.com"

/-! Helper lemmas. -/

/-- A successful load returns exactly the derived image of the source rows. -/
lemma load_ok_eq_map {src : Source} {recs : List EmployeeRecord}
    (h : load_employee_data src = .ok recs) : recs = src.rows.map computeNet := by
  unfold load_employee_data at h
  split at h
  · split at h
    · simp at h
    · exact (Except.ok.inj h).symm
  · simp at h

/-- Every record of a successful load is the derived image of a source row. -/
lemma load_ok_mem {src : Source} {recs : List EmployeeRecord} {r : EmployeeRecord}
    (h : load_employee_data src = .ok recs) (hmem : r ∈ recs) :
    ∃ row ∈ src.rows, r = computeNet row := by
  have hmap := load_ok_eq_map h
  subst hmap
  obtain ⟨row, hrow, hr⟩ := List.mem_map.mp hmem
  exact ⟨row, hrow, hr.symm⟩

/-! Claim theorems. -/

/-- C1: every record of a successfully loaded roster stores
`net_salary = basic_salary + allowances - deductions` exactly, as derived
at load time; no rounding is applied to the stored value. -/
theorem net_salary_is_derived_sum (src : Source) (recs : List EmployeeRecord)
    (r : EmployeeRecord) (hload : load_employee_data src = .ok recs)
    (hmem : r ∈ recs) :
    r.netSalary = r.basicSalary + r.allowances - r.deductions := by
  obtain ⟨row, _, hr⟩ := load_ok_mem hload hmem
  subst hr
  rfl

/-- C1 witness: the derivation evaluated on the first record of the
concrete sample roster. -/
theorem net_salary_is_derived_sum_witness :
    (computeNet aliceRow).netSalary =
      (computeNet aliceRow).basicSalary + (computeNet aliceRow).allowances
        - (computeNet aliceRow).deductions :=
  net_salary_is_derived_sum sampleSource sampleRecords (computeNet aliceRow)
    rfl (by simp [sampleRecords])

/-- C4: a source whose schema lacks any required column fails with the
missing-columns `LoadError` and produces no records. -/
theorem missing_columns_fails (src : Source)
    (h : required_columns.all (fun c => src.columns.contains c) = false) :
    load_employee_data src = .error .missingColumns := by
  unfold load_employee_data
  rw [h]
  rfl

/-- C4 witness: loading the source missing the monetary columns fails. -/
theorem missing_columns_fails_witness :
    load_employee_data badSchemaSource = .error .missingColumns :=
  missing_columns_fails badSchemaSource (by decide)

/-- Indexing a zip of two lists pairs the elements at the same index. -/
lemma zip_getElem? {α β : Type} (a : List α) (b : List β) (i : ℕ)
    (h1 : i < a.length) (h2 : i < b.length) :
    (a.zip b)[i]? = some (a.get ⟨i, h1⟩, b.get ⟨i, h2⟩) := by
  induction a generalizing b i with
  | nil => simp at h1
  | cons x xs ih =>
    cases b with
    | nil => simp at h2
    | cons y ys =>
      cases i with
      | zero => simp
      | succ n =>
        have h1n : n < xs.length := by simpa using h1
        have h2n : n < ys.length := by simpa using h2
        simpa using ih ys n h1n h2n

/-- The second components of a zip are the first `a.length` elements of `b`. -/
lemma zip_map_snd {α β : Type} (a : List α) (b : List β) :
    (a.zip b).map Prod.snd = b.take a.length := by
  induction a generalizing b with
  | nil => simp
  | cons x xs ih =>
    cases b with
    | nil => simp
    | cons y ys => simp [ih]

/-- The first components of a zip are the first `b.length` elements of `a`. -/
lemma zip_map_fst {α β : Type} (a : List α) (b : List β) :
    (a.zip b).map Prod.fst = a.take b.length := by
  induction a generalizing b with
  | nil => simp
  | cons x xs ih =>
    cases b with
    | nil => simp
    | cons y ys => simp [ih]

/-- The render stage keeps exactly the successful renders. -/
lemma renderAll_length (render : EmployeeRecord → Except RenderError String)
    (records : List EmployeeRecord) :
    (renderAll render records).length =
      records.countP (fun r => ((render r).toOption).isSome) := by
  induction records with
  | nil => rfl
  | cons r rs ih =>
    unfold renderAll at ih ⊢
    cases h : (render r).toOption with
    | none => simp [List.filterMap_cons, List.countP_cons, h, ih]
    | some f => simp [List.filterMap_cons, List.countP_cons, h, ih]

/-- C2: `send_payslips` pairs attachments with recipients by positional
zip — for every index below both lengths, the i-th generated file is the
attachment of the email sent to the i-th loaded record's address,
whatever record that file was rendered from. -/
theorem positional_zip_pairing (notify : Option String → String → Bool)
    (files : List String) (records : List EmployeeRecord) (i : ℕ)
    (h1 : i < files.length) (h2 : i < records.length) :
    (notifyAttempts files records)[i]? =
        some (files.get ⟨i, h1⟩, records.get ⟨i, h2⟩)
      ∧ (sendResults notify files records)[i]? =
          some (notify (records.get ⟨i, h2⟩).email (files.get ⟨i, h1⟩)) := by
  have hz := zip_getElem? files records i h1 h2
  refine ⟨hz, ?_⟩
  unfold sendResults notifyAttempts
  rw [List.getElem?_map, hz]
  rfl

/-- C2 witness: the pairing evaluated at index 0 of a concrete run in
which the first file is zipped with the first record. -/
theorem positional_zip_pairing_witness :
    (notifyAttempts ["payslips/1.pdf", "payslips/2.pdf"] sampleRecords)[0]? =
        some ("payslips/1.pdf",
          (sampleRecords).get ⟨0, by simp [sampleRecords]⟩)
      ∧ (sendResults (fun _ _ => true)
            ["payslips/1.pdf", "payslips/2.pdf"] sampleRecords)[0]? =
          some ((fun (_ : Option String) (_ : String) => true)
            ((sampleRecords.get ⟨0, by simp [sampleRecords]⟩).email) "payslips/1.pdf") :=
  positional_zip_pairing (fun _ _ => true) ["payslips/1.pdf", "payslips/2.pdf"]
    sampleRecords 0 (by simp) (by simp [sampleRecords])

/-- C3: with the schema present, a roster in which any row is missing its
`Employee ID` or `Email` cell fails the entire load with the
missing-required-field error and yields no records at all. -/
theorem missing_required_field_fails_whole_load (src : Source)
    (hcols : required_columns.all (fun c => src.columns.contains c) = true)
    (hbad : src.rows.any (fun row => row.employeeId.isNone || row.email.isNone) = true) :
    (∃ rowId, load_employee_data src = .error (.missingField rowId))
      ∧ ∀ recs, load_employee_data src ≠ .ok recs := by
  have hfind : ∃ r, (src.rows.map computeNet).find? badRecord = some r := by
    obtain ⟨row, hrow, hp⟩ := List.any_eq_true.mp hbad
    have : ∃ x ∈ src.rows.map computeNet, badRecord x = true :=
      ⟨computeNet row, List.mem_map_of_mem computeNet hrow, hp⟩
    obtain ⟨r, hr⟩ := Option.isSome_iff_exists.mp (List.find?_isSome.mpr this)
    exact ⟨r, hr⟩
  obtain ⟨r, hr⟩ := hfind
  have hload : load_employee_data src = .error (.missingField r.name) := by
    unfold load_employee_data
    rw [hcols, hr]
    rfl
  exact ⟨⟨r.name, hload⟩, fun recs hrecs => by rw [hload] at hrecs; simp at hrecs⟩

/-- C3 witness: the two-row source whose second row lacks an email fails
the whole load. -/
theorem missing_required_field_fails_whole_load_witness :
    (∃ rowId, load_employee_data badRowSource = .error (.missingField rowId))
      ∧ ∀ recs, load_employee_data badRowSource ≠ .ok recs :=
  missing_required_field_fails_whole_load badRowSource rfl rfl

/-- C8: the output path of `create_payslip` is derived deterministically
from the canonical employee id alone — rendering the same record on two
dates yields the same `payslips/<id>.pdf` path, while the drawn content
carries the render-time date. -/
theorem payslip_path_deterministic (r : EmployeeRecord) (d₁ d₂ : String) :
    (create_payslip r d₁).1 = (create_payslip r d₂).1
      ∧ (create_payslip r d₁).1 =
          "payslips/" ++ canonical_employee_id r.employeeId ++ ".pdf"
      ∧ (create_payslip r d₁).2.date = d₁ :=
  ⟨rfl, rfl, rfl⟩

/-- C5: whatever completion order the pool produces, the render stage over
a loaded roster returns exactly the successful renders — every failure is
dropped without aborting the batch, so at most one document per record. -/
theorem batch_generation_best_effort
    (render : EmployeeRecord → Except RenderError String) (src : Source)
    (recs : List EmployeeRecord) (out : List String)
    (hload : load_employee_data src = .ok recs)
    (hout : GeneratePayslipsBatch render src out) :
    out.length ≤ recs.length
      ∧ out.length = recs.countP (fun r => ((render r).toOption).isSome) := by
  have hperm : out.Perm (renderAll render recs) := by
    unfold GeneratePayslipsBatch at hout
    rw [hload] at hout
    exact hout
  have hlen := hperm.length_eq
  constructor
  · rw [hlen]
    exact List.length_filterMap_le _ _
  · rw [hlen, renderAll_length]

/-- C5 witness: over the three-record sample roster with Bob's render
failing, a reverse-completion-order run yields the two successful
documents. -/
theorem batch_generation_best_effort_witness :
    wOut.length ≤ sampleRecords.length
      ∧ wOut.length = sampleRecords.countP (fun r => ((wRender r).toOption).isSome) :=
  batch_generation_best_effort wRender sampleSource sampleRecords wOut rfl
    (by have h : wOut.Perm (renderAll wRender sampleRecords) := by decide
        exact h)

/-- C6: the success count of `send_payslips` never exceeds the number of
attempted (document, recipient) pairs, and every pair yields exactly one
delivery attempt — a `False` result for one recipient neither removes nor
repeats any other attempt (no retry). -/
theorem notify_success_count_bounded (notify : Option String → String → Bool)
    (files : List String) (records : List EmployeeRecord) :
    send_payslips notify files records ≤ (notifyAttempts files records).length
      ∧ (sendResults notify files records).length
          = (notifyAttempts files records).length := by
  constructor
  · calc send_payslips notify files records
        ≤ (sendResults notify files records).length := List.countP_le_length _
      _ = (notifyAttempts files records).length := by simp [sendResults]
  · simp [sendResults]

/-- C7: a run whose load fails invokes no render and no notify operation
and reports no summary — `main` returns right after `if df is None`. -/
theorem load_failure_aborts_run
    (render : EmployeeRecord → Except RenderError String)
    (notify : Option String → String → Bool) (src : Source)
    (events : List Event) (summary : Option (ℕ × ℕ)) (e : LoadError)
    (hload : load_employee_data src = .error e)
    (hrun : MainRun render notify src events summary) :
    events = [] ∧ summary = none := by
  unfold MainRun at hrun
  rw [hload] at hrun
  exact hrun

/-- C7 witness: the run over the schema-missing source aborts with no
events and no summary. -/
theorem load_failure_aborts_run_witness :
    ([] : List Event) = [] ∧ (none : Option (ℕ × ℕ)) = none :=
  load_failure_aborts_run wRender wNotify badSchemaSource [] none
    .missingColumns rfl ⟨rfl, rfl⟩

/-- C9: a loaded record whose deductions exceed basic salary plus
allowances has a negative stored net salary, and `create_payslip` draws
that value unclamped — its net-salary line carries a leading minus sign. -/
theorem negative_net_salary_rendered_signed (src : Source)
    (recs : List EmployeeRecord) (r : EmployeeRecord) (d : String)
    (hload : load_employee_data src = .ok recs) (hmem : r ∈ recs)
    (hexceed : r.basicSalary + r.allowances < r.deductions) :
    r.netSalary < 0
      ∧ (create_payslip r d).2.netSalary = r.netSalary
      ∧ ∃ s, rendered_net_line (create_payslip r d).2 = "📊 Net Salary: $-" ++ s := by
  obtain ⟨row, _, hr⟩ := load_ok_mem hload hmem
  have hnet : r.netSalary = r.basicSalary + r.allowances - r.deductions := by
    subst hr
    rfl
  have hneg : r.netSalary < 0 := by
    rw [hnet]
    linarith
  have hfmt : formatMoney r.netSalary
      = "-" ++ fmtAbs (round (-r.netSalary * 100)).toNat := by
    unfold formatMoney
    rw [if_pos hneg]
  refine ⟨hneg, rfl, ⟨fmtAbs (round (-r.netSalary * 100)).toNat, ?_⟩⟩
  show "📊 Net Salary: $" ++ formatMoney r.netSalary = _
  rw [hfmt, ← String.append_assoc]
  rfl

/-- C9 witness: Carol's record (500 + 100 − 700) evaluated through the
renderer. -/
theorem negative_net_salary_rendered_signed_witness :
    (computeNet carolRow).netSalary < 0
      ∧ (create_payslip (computeNet carolRow) "January 01, 2026").2.netSalary
          = (computeNet carolRow).netSalary
      ∧ ∃ s, rendered_net_line
            (create_payslip (computeNet carolRow) "January 01, 2026").2
          = "📊 Net Salary: $-" ++ s :=
  negative_net_salary_rendered_signed sampleSource sampleRecords
    (computeNet carolRow) "January 01, 2026" rfl
    (by simp [sampleRecords]) (by norm_num [computeNet, carolRow])

/-- C10: `send_payslips` attempts exactly `min(#documents, #records)`
notifications: when fewer documents than records exist, the zipped
attempts cover only the first `#documents` records and the surplus
records are silently skipped. -/
theorem surplus_records_skipped (notify : Option String → String → Bool)
    (files : List String) (records : List EmployeeRecord) :
    (notifyAttempts files records).length = min files.length records.length
      ∧ (sendResults notify files records).length
          = min files.length records.length
      ∧ (notifyAttempts files records).map Prod.snd = records.take files.length
      ∧ (notifyAttempts files records).map Prod.fst = files.take records.length := by
  have hlen : (notifyAttempts files records).length
      = min files.length records.length := by
    simp [notifyAttempts]
  exact ⟨hlen, by simpa [sendResults] using hlen,
    zip_map_snd files records, zip_map_fst files records⟩

end Payslip
